import Mathlib

/-!
Verification of the CarFit configurator engine.

Shallow embedding of the core logic of the repository:
* the parts catalog (`frontend/lib/parts-data.ts`): categories, options,
  lookup helpers and the stable z-index sort;
* the Zustand selection store (`configurator-store`): selection state,
  mutations (`selectPart`, `deselectPart`, `clearCategory`, `setCarImage`,
  `clearAll`) and derived queries;
* the generation handlers (`ConfiguratorLayout.handleGenerate` and the
  main page handler): guard, request build, and response classification;
* the two compositor paths (canvas rasterizer and live layer stack).

JavaScript semantics are modeled as follows: `Array.prototype.sort` with a
numeric comparator is a stable sort, modeled by `List.mergeSort`; string
truthiness (`if (x)`, `x || d`) is modeled by `truthy` / `orDefault`;
`undefined`-able values are `Option`.
-/

namespace CarFit

/-- Selection type of a category: radio-button logic vs checkbox logic. -/
inductive SelectionType where
  | exclusive
  | additive
deriving Repr, DecidableEq

/-- Category ids (`'wrap' | 'roof' | 'body'` in `parts-data.ts`). -/
inductive PartCategoryId where
  | wrap
  | roof
  | body
deriving Repr, DecidableEq

/-- Part category with selection behavior (`PartCategory` in `parts-data.ts`). -/
structure PartCategory where
  id : PartCategoryId
  label : String
  catDescription : String
  icon : String
  type : SelectionType
deriving Repr, DecidableEq

/-- Individual part option with layer information (`PartOption` in `parts-data.ts`). -/
structure PartOption where
  id : String
  categoryId : PartCategoryId
  name : String
  partDescription : String
  price : Nat
  imagePath : String
  layerImageUrl : String
  zIndex : Nat
deriving Repr, DecidableEq

/-- The `PART_CATEGORIES` constant: wrap and roof are exclusive, body is additive. -/
def PART_CATEGORIES : List PartCategory := [
  { id := .wrap, label := "Car Wraps",
    catDescription := "Transform your car with vinyl wraps. Select ONE color.",
    icon := "wrap-icon", type := .exclusive },
  { id := .roof, label := "Roof Storage",
    catDescription := "Choose ONE roof accessory for your vehicle.",
    icon := "roof-icon", type := .exclusive },
  { id := .body, label := "Body Style Accent",
    catDescription := "Add body kit components. Combine multiple parts.",
    icon := "body-icon", type := .additive }
]

/-- The `PART_OPTIONS` constant: the nine catalog entries with their z-indices. -/
def PART_OPTIONS : List PartOption := [
  { id := "wrap_matte_black_01", categoryId := .wrap, name := "Matte Black Wrap",
    partDescription := "Sleek matte black finish for a stealthy look.", price := 2499,
    imagePath := "/parts/wrap/wrap_matte_black_01.png",
    layerImageUrl := "/layers/wrap/matte-black.png", zIndex := 10 },
  { id := "wrap_satin_chrome_02", categoryId := .wrap, name := "Satin Chrome Silver",
    partDescription := "Mirror-like satin chrome for head-turning style.", price := 3499,
    imagePath := "/parts/wrap/wrap_satin_chrome_02.png",
    layerImageUrl := "/layers/wrap/satin-chrome.png", zIndex := 10 },
  { id := "wrap_color_shift_03", categoryId := .wrap, name := "Color Shift Purple-Blue",
    partDescription := "Chameleon wrap that shifts colors in the light.", price := 3999,
    imagePath := "/parts/wrap/wrap_color_shift_03.png",
    layerImageUrl := "/layers/wrap/color-shift.png", zIndex := 10 },
  { id := "roof_rack_silver_02", categoryId := .roof, name := "Silver Roof Rack Rails",
    partDescription := "Low-profile roof rails for mounting gear.", price := 199,
    imagePath := "/parts/roof/roof_rack_silver_02.png",
    layerImageUrl := "/layers/roof/rack-rails.png", zIndex := 30 },
  { id := "roof_box_black_01", categoryId := .roof, name := "Matte Black Roof Box",
    partDescription := "Sleek roof box for extra storage.", price := 449,
    imagePath := "/parts/roof/roof_box_black_01.png",
    layerImageUrl := "/layers/roof/box-black.png", zIndex := 40 },
  { id := "roof_basket_black_03", categoryId := .roof, name := "Black Roof Basket",
    partDescription := "Open basket for camping and outdoor trips.", price := 279,
    imagePath := "/parts/roof/roof_basket_black_03.png",
    layerImageUrl := "/layers/roof/basket-black.png", zIndex := 45 },
  { id := "body_frontlip_black_01", categoryId := .body, name := "Black Front Lip Spoiler",
    partDescription := "Low front lip to sharpen the front view.", price := 189,
    imagePath := "/parts/body/body_frontlip_black_01.png",
    layerImageUrl := "/layers/body/frontlip-black.png", zIndex := 20 },
  { id := "body_sideskirt_color_02", categoryId := .body, name := "Color-Matched Side Skirts",
    partDescription := "Side skirts that extend the body line.", price := 249,
    imagePath := "/parts/body/body_sideskirt_color_02.png",
    layerImageUrl := "/layers/body/sideskirt.png", zIndex := 21 },
  { id := "body_spoiler_black_03", categoryId := .body, name := "Subtle Rear Roof Spoiler",
    partDescription := "Clean rear spoiler for a sportier silhouette.", price := 179,
    imagePath := "/parts/body/body_spoiler_black_03.png",
    layerImageUrl := "/layers/body/spoiler-black.png", zIndex := 25 }
]

/-- The `getPartsByCategory` helper: filter the catalog by category id. -/
def getPartsByCategory (categoryId : PartCategoryId) : List PartOption :=
  PART_OPTIONS.filter (fun part => part.categoryId == categoryId)

/-- The `getPartById` helper: `PART_OPTIONS.find(part => part.id === partId)`. -/
def getPartById (partId : String) : Option PartOption :=
  PART_OPTIONS.find? (fun part => part.id == partId)

/-- The `getCategoryById` helper. -/
def getCategoryById (categoryId : PartCategoryId) : Option PartCategory :=
  PART_CATEGORIES.find? (fun cat => cat.id == categoryId)

/-- The `isExclusiveCategory` helper: `category?.type === 'exclusive'`. -/
def isExclusiveCategory (categoryId : PartCategoryId) : Bool :=
  (getCategoryById categoryId).any (fun cat => cat.type == .exclusive)

/-- The `getLayersSortedByZIndex` helper: resolve ids in the catalog, drop the
unresolvable ones, and stably sort by `zIndex` (JS `Array.sort` with the numeric
comparator `a.zIndex - b.zIndex` is a stable ascending sort). -/
def getLayersSortedByZIndex (selectedIds : List String) : List PartOption :=
  (selectedIds.filterMap getPartById).mergeSort
    (fun a b => decide (a.zIndex ≤ b.zIndex))

/-! Selection store (`configurator-store`, Zustand).  The state fields copy
the `ConfiguratorState` interface: exclusive categories store a single id or
null, the additive category stores an array of ids.  The `File` object of the
uploaded photo is modeled by an identifying string, and `URL.createObjectURL`
by a deterministic tagging function. -/

/-- Selection slots of the store: `wrap`/`roof` exclusive, `body` additive. -/
structure Selections where
  wrap : Option String
  roof : Option String
  body : List String
deriving Repr, DecidableEq

/-- The whole Zustand store state relevant to the engine. -/
structure StoreState where
  selections : Selections
  carImage : Option String
  carImageUrl : Option String
  resultImage : Option String
  isGenerating : Bool
  aiMessage : Option String
deriving Repr, DecidableEq

/-- The `initialSelections` constant. -/
def initialSelections : Selections := { wrap := none, roof := none, body := [] }

/-- Initial store state. -/
def initialState : StoreState :=
  { selections := initialSelections, carImage := none, carImageUrl := none,
    resultImage := none, isGenerating := false, aiMessage := none }

/-- Model of `URL.createObjectURL`. -/
def createObjectURL (f : String) : String := "blob:" ++ f

/-- The `selectPart` action: exclusive toggle for wrap/roof, array toggle for
body; every branch also clears `resultImage` and `aiMessage`. -/
def selectPart (categoryId : PartCategoryId) (partId : String) (s : StoreState) : StoreState :=
  match categoryId with
  | .wrap =>
      { s with
        selections := { s.selections with
          wrap := if s.selections.wrap == some partId then none else some partId }
        resultImage := none
        aiMessage := none }
  | .roof =>
      { s with
        selections := { s.selections with
          roof := if s.selections.roof == some partId then none else some partId }
        resultImage := none
        aiMessage := none }
  | .body =>
      let currentArray := s.selections.body
      let newArray :=
        if currentArray.contains partId then
          currentArray.filter (fun id => id != partId)
        else
          currentArray ++ [partId]
      { s with
        selections := { s.selections with body := newArray }
        resultImage := none
        aiMessage := none }

/-- The `deselectPart` action: removes the id from its category slot only;
the returned partial state carries just `selections`, so the result and
message slots are left as they were. -/
def deselectPart (categoryId : PartCategoryId) (partId : String) (s : StoreState) : StoreState :=
  match categoryId with
  | .wrap =>
      { s with selections := { s.selections with
          wrap := if s.selections.wrap == some partId then none else s.selections.wrap } }
  | .roof =>
      { s with selections := { s.selections with
          roof := if s.selections.roof == some partId then none else s.selections.roof } }
  | .body =>
      { s with selections := { s.selections with
          body := s.selections.body.filter (fun id => id != partId) } }

/-- The `clearCategory` action: resets one category slot; like `deselectPart`
it only updates `selections`. -/
def clearCategory (categoryId : PartCategoryId) (s : StoreState) : StoreState :=
  match categoryId with
  | .wrap => { s with selections := { s.selections with wrap := none } }
  | .roof => { s with selections := { s.selections with roof := none } }
  | .body => { s with selections := { s.selections with body := [] } }

/-- The `setCarImage` action: install the new photo (creating an object URL
when present) and clear the result and message slots. -/
def setCarImage (file : Option String) (s : StoreState) : StoreState :=
  { s with
    carImage := file
    carImageUrl := (file.map createObjectURL)
    resultImage := none
    aiMessage := none }

/-- The `setResultImage` action. -/
def setResultImage (url : Option String) (s : StoreState) : StoreState :=
  { s with resultImage := url }

/-- The `setIsGenerating` action. -/
def setIsGenerating (generating : Bool) (s : StoreState) : StoreState :=
  { s with isGenerating := generating }

/-- The `setAiMessage` action. -/
def setAiMessage (message : Option String) (s : StoreState) : StoreState :=
  { s with aiMessage := message }

/-- The `clearAll` action: reset everything to the initial state. -/
def clearAll (_s : StoreState) : StoreState := initialState

/-- Order in which the store collects the selected ids: wrap slot, roof slot,
then the body array in insertion order (shared by `getSelectedParts`,
`getSelectedLayers` and `getSelectionCount`). -/
def selectedIds (s : StoreState) : List String :=
  s.selections.wrap.toList ++ s.selections.roof.toList ++ s.selections.body

/-- The `getSelectedParts` query: resolve every selected id in the catalog,
dropping ids that do not resolve. -/
def getSelectedParts (s : StoreState) : List PartOption :=
  (selectedIds s).filterMap getPartById

/-- The `getSelectedLayers` query: selected ids through `getLayersSortedByZIndex`. -/
def getSelectedLayers (s : StoreState) : List PartOption :=
  getLayersSortedByZIndex (selectedIds s)

/-- The `getTotalPrice` query: `parts.reduce((sum, part) => sum + part.price, 0)`. -/
def getTotalPrice (s : StoreState) : Nat :=
  (getSelectedParts s).foldl (fun sum part => sum + part.price) 0

/-- The `getSelectionCount` query: one per occupied exclusive slot plus the
length of the body array (counted on raw ids, without catalog resolution). -/
def getSelectionCount (s : StoreState) : Nat :=
  (if s.selections.wrap.isSome then 1 else 0) +
  (if s.selections.roof.isSome then 1 else 0) +
  s.selections.body.length

/-- The `isPartSelected` query: membership across the three slots. -/
def isPartSelected (partId : String) (s : StoreState) : Bool :=
  s.selections.wrap == some partId ||
  s.selections.roof == some partId ||
  s.selections.body.contains partId

example : getSelectionCount (selectPart .wrap "wrap_matte_black_01" initialState) = 1 := by decide
example : getTotalPrice (selectPart .body "body_frontlip_black_01"
    (selectPart .wrap "wrap_matte_black_01" initialState)) = 2688 := by decide

/-! Generation request and response handling.  `handleGenerate` in
`ConfiguratorLayout.tsx` guards on the photo and the selection count, builds
a JSON request, and interprets the JSON response by payload fields; the main
page handler (`Home.handleGenerate`) interprets the response by its `status`
discriminator.  JS string truthiness and the `||` default operator are modeled
explicitly; base64 serialization of an image is modeled by a tagging
function. -/

/-- Truthiness of a JS string-or-undefined value: `undefined` and the empty
string are falsy. -/
def truthy : Option String → Bool
  | none => false
  | some s => s != ""

/-- The JS `x || d` default for string-or-undefined `x`. -/
def orDefault (x : Option String) (d : String) : String :=
  match x with
  | some s => if s == "" then d else s
  | none => d

/-- Model of `FileReader.readAsDataURL` serialization of an image source. -/
def dataUrlOf (src : String) : String := "data:" ++ src

/-- Shape of the JSON response of `/api/generate` as the frontend reads it. -/
structure GenResponse where
  status : Option String
  image_base64 : Option String
  image_url : Option String
  message : Option String
deriving Repr, DecidableEq

/-- Entry of the `all_parts` array sent for multi-part attempts. -/
structure PartPayload where
  id : String
  name : String
  category : PartCategoryId
  payloadDescription : String
deriving Repr, DecidableEq

/-- Request body built by `ConfiguratorLayout.handleGenerate`. -/
structure GenRequest where
  car_image : String
  part_image : String
  part_name : String
  part_category : PartCategoryId
  part_description : String
  all_parts : List PartPayload
deriving Repr, DecidableEq

/-- The `buildAiPromptFromParts` helper: empty for no parts, the single
part's text alone, otherwise the texts joined by commas with an `", and "`
before the last one.  The catalog version in scope stores the prompt text in
the part's description field. -/
def buildAiPromptFromParts (parts : List PartOption) : String :=
  match parts.map (fun p => p.partDescription) with
  | [] => ""
  | [d] => d
  | d :: ds =>
      String.intercalate ", " ((d :: ds).dropLast) ++ ", and " ++
        ((d :: ds).getLast (by simp))

/-- The catch branch of `handleGenerate`: a thrown error sets the generic
failure message, and the `finally` clause resets `isGenerating`. -/
def applyCatchCL (s : StoreState) : StoreState :=
  setIsGenerating false
    (setAiMessage (some "Failed to generate image. Please try again.") s)

/-- Synchronous start of `ConfiguratorLayout.handleGenerate`, up to the
dispatch of the request: the guard `if (!carImage || selectionCount === 0)
return;` makes the action a no-op; otherwise the generating flag is raised,
stale result and message are cleared, and the request body is assembled from
the selected parts (first part's image as the primary reference).  When the
selection count is positive but no selected id resolves, `selectedParts[0]`
is `undefined` and the property access throws into the catch branch before
any request is dispatched. -/
def handleGenerateStart (s : StoreState) : StoreState × Option GenRequest :=
  if s.carImage.isNone || getSelectionCount s == 0 then
    (s, none)
  else
    let s1 := setAiMessage none (setResultImage none (setIsGenerating true s))
    match s.carImage, getSelectedParts s with
    | some car, primaryPart :: rest =>
        let parts := primaryPart :: rest
        (s1, some {
          car_image := dataUrlOf car,
          part_image := dataUrlOf primaryPart.imagePath,
          part_name := String.intercalate ", " (parts.map (fun p => p.name)),
          part_category := primaryPart.categoryId,
          part_description := buildAiPromptFromParts parts,
          all_parts := parts.map (fun p =>
            { id := p.id, name := p.name, category := p.categoryId,
              payloadDescription := p.partDescription }) })
    | _, _ => (applyCatchCL s1, none)

/-- Placeholder image installed by `ConfiguratorLayout` when the response has
a message but no image. -/
def PLACEHOLDER_IMAGE_URL : String :=
  "https://images.unsplash.com/photo-1544636331-e26879cd4d9b?w=800"

/-- Default success message of `ConfiguratorLayout` for `n` selected parts. -/
def appliedMessage (n : Nat) : String :=
  "Applied " ++ toString n ++ " modification(s) successfully."

/-- Response interpretation of `ConfiguratorLayout.handleGenerate`: branches
on `image_base64`, then `image_url`, then `message` (not on `status`); a
message without an image installs the placeholder image; the `finally`
clause resets `isGenerating`. -/
def applyResponseCL (s : StoreState) (data : GenResponse) : StoreState :=
  let s1 :=
    if truthy data.image_base64 then
      setAiMessage (some (orDefault data.message (appliedMessage (getSelectionCount s))))
        (setResultImage data.image_base64 s)
    else if truthy data.image_url then
      setAiMessage (some (orDefault data.message "Preview generated."))
        (setResultImage data.image_url s)
    else if truthy data.message then
      setResultImage (some PLACEHOLDER_IMAGE_URL) (setAiMessage data.message s)
    else
      s
  setIsGenerating false s1

/-- Result and message slots of the main page (`Home`) component. -/
structure MainPageState where
  resultImage : Option String
  generationMessage : Option String
  isGenerating : Bool
deriving Repr, DecidableEq

/-- Response interpretation of the main page handler: branches on the
`status` discriminator (`success`, `demo`, `rate_limited`, `text_response`,
else a catch-all), plus the `finally` reset of `isGenerating`. -/
def applyResponseMain (s : MainPageState) (data : GenResponse) : MainPageState :=
  let s1 :=
    if data.status == some "success" && truthy data.image_base64 then
      { s with
        resultImage := data.image_base64
        generationMessage := some (orDefault data.message "Generated successfully!") }
    else if data.status == some "demo" && truthy data.image_url then
      { s with
        resultImage := data.image_url
        generationMessage := some (orDefault data.message
          "Demo mode - configure API key for real generation") }
    else if data.status == some "rate_limited" then
      { s with generationMessage := some (orDefault data.message
          "Rate limited. Please wait and try again.") }
    else if data.status == some "text_response" then
      { s with generationMessage := data.message }
    else
      { s with generationMessage := some (orDefault data.message "Generation completed") }
  { s1 with isGenerating := false }

/-- The spec's tagged outcome variants for a completed generation attempt. -/
inductive GenerationOutcome where
  | success (image : String) (message : String)
  | demo (imageUrl : String) (message : String)
  | rateLimited (message : String)
  | textOnly (message : Option String)
  | failure (message : String)
deriving Repr, DecidableEq

/-- Outcome classification of the main page handler: same branch structure as
`applyResponseMain`, with each branch tagged by the spec's outcome name (the
final catch-all branch is the spec's `Failure`). -/
def classifyResponse (data : GenResponse) : GenerationOutcome :=
  if data.status == some "success" && truthy data.image_base64 then
    .success (data.image_base64.getD "") (orDefault data.message "Generated successfully!")
  else if data.status == some "demo" && truthy data.image_url then
    .demo (data.image_url.getD "") (orDefault data.message
      "Demo mode - configure API key for real generation")
  else if data.status == some "rate_limited" then
    .rateLimited (orDefault data.message "Rate limited. Please wait and try again.")
  else if data.status == some "text_response" then
    .textOnly data.message
  else
    .failure (orDefault data.message "Generation completed")

/-- Test whether a status discriminator is one of the four documented values. -/
def knownStatus (st : Option String) : Bool :=
  st == some "success" || st == some "demo" ||
  st == some "rate_limited" || st == some "text_response"

/-! Layer compositor.  The raster path (`OverlayCanvas.renderCanvas`) belongs
to the anchor-based iteration whose categories are wheels/roof/body: it draws
the base photo, then each selected part's overlay at its category anchor,
with a per-part try/catch so a failed image load skips only that layer.  The
live path (`LayeredVisualizer` with `PartLayer`) renders each selected layer
unless its image errored.  Image load/decode success is an oracle
parameter. -/

/-- Category ids of the anchor-based raster iteration. -/
inductive OverlayCategoryId where
  | wheels
  | roof
  | body
deriving Repr, DecidableEq

/-- Part option shape of the raster iteration (no layer data, thumbnail only). -/
structure RasterPartOption where
  id : String
  categoryId : OverlayCategoryId
  name : String
  rasterDescription : String
  imagePath : String
  price : Nat
deriving Repr, DecidableEq

/-- Normalized anchor configuration (`OverlayAnchor` in `parts-data.ts`). -/
structure OverlayAnchor where
  x : ℚ
  y : ℚ
  scale : ℚ
deriving Repr, DecidableEq

/-- The `OVERLAY_ANCHORS` record. -/
def OVERLAY_ANCHORS : OverlayCategoryId → OverlayAnchor
  | .wheels => { x := 1/2, y := 3/4, scale := 3/10 }
  | .roof => { x := 1/2, y := 3/20, scale := 2/5 }
  | .body => { x := 1/2, y := 11/20, scale := 1/2 }

/-- The `getOverlayAnchor` helper. -/
def getOverlayAnchor (categoryId : OverlayCategoryId) : OverlayAnchor :=
  OVERLAY_ANCHORS categoryId

/-- Geometry of `drawOverlay`: width from the anchor scale, height keeping
the overlay's aspect ratio, top-left so the center lands on the anchor.
Returned as (x, y, width, height). -/
def drawOverlayRect (imgWidth imgHeight : ℚ) (anchor : OverlayAnchor)
    (canvasWidth canvasHeight : ℚ) : ℚ × ℚ × ℚ × ℚ :=
  let overlayWidth := canvasWidth * anchor.scale
  let overlayHeight := (imgHeight / imgWidth) * overlayWidth
  (anchor.x * canvasWidth - overlayWidth / 2,
   anchor.y * canvasHeight - overlayHeight / 2,
   overlayWidth, overlayHeight)

/-- Draw operations issued by `renderCanvas`, in issue order. -/
inductive DrawOp where
  | drawBase
  | drawOverlay (part : RasterPartOption) (anchor : OverlayAnchor)
deriving Repr, DecidableEq

/-- Draw sequence of `renderCanvas` once the base photo has loaded: the base
image first, then one overlay per selected part whose image loads, in map
iteration order; a part whose load throws is skipped by the per-part catch
and iteration continues. -/
def renderCanvasOps (loadOk : RasterPartOption → Bool)
    (selectedParts : List (OverlayCategoryId × RasterPartOption)) : List DrawOp :=
  DrawOp.drawBase ::
    selectedParts.filterMap (fun e =>
      if loadOk e.2 then some (.drawOverlay e.2 (getOverlayAnchor e.1)) else none)

/-- Live-stack rendering: `PartLayer` renders nothing for a layer whose image
errored, so the stack shows exactly the non-erroring selected layers in their
given (z-sorted) order above the base photo. -/
def renderStack (hasError : PartOption → Bool) (layers : List PartOption) : List PartOption :=
  layers.filter (fun part => !(hasError part))

/-! Theorems. -/

/-- Ids selected in one category: the option slot as a zero/one element list
for wrap and roof, the id array for body. -/
def categorySelectedIds (s : StoreState) : PartCategoryId → List String
  | .wrap => s.selections.wrap.toList
  | .roof => s.selections.roof.toList
  | .body => s.selections.body

/-- C1 counterexample: from a store state in which option a of the exclusive
wrap category is already selected, toggling a twice does not leave the
category empty — the first toggle deselects a and the second reselects it. -/
theorem exclusive_double_toggle_counterexample :
    isExclusiveCategory .wrap = true ∧
    categorySelectedIds (selectPart .wrap "wrap_matte_black_01"
      (selectPart .wrap "wrap_matte_black_01"
        { selections := { wrap := some "wrap_matte_black_01", roof := none, body := [] },
          carImage := none, carImageUrl := none, resultImage := none,
          isGenerating := false, aiMessage := none })) .wrap ≠ [] := by
  decide

/-- C1 (amended): for an exclusive category and distinct options a and b,
toggling a then b always leaves b as the only selected id; toggling a twice
leaves the category empty provided a was not already its selected option
(otherwise the two toggles restore a); and an exclusive category's slot never
holds more than one id. -/
theorem exclusive_toggle_correct (s : StoreState) (c : PartCategoryId) (a b : String)
    (hexcl : isExclusiveCategory c = true) (hab : a ≠ b) :
    categorySelectedIds (selectPart c b (selectPart c a s)) c = [b] ∧
    (categorySelectedIds s c ≠ [a] →
      categorySelectedIds (selectPart c a (selectPart c a s)) c = []) ∧
    (∀ s' : StoreState, (categorySelectedIds s' c).length ≤ 1) := by
  cases c with
  | body => exact absurd hexcl (by decide)
  | wrap =>
      refine ⟨?_, ?_, ?_⟩
      · by_cases h : s.selections.wrap = some a <;>
          simp [selectPart, categorySelectedIds, h, hab, beq_iff_eq]
      · intro hne
        have hwa : s.selections.wrap ≠ some a := by
          intro h
          exact hne (by simp [categorySelectedIds, h])
        simp [selectPart, categorySelectedIds, hwa, beq_iff_eq]
      · intro s'
        cases hw : s'.selections.wrap <;> simp [categorySelectedIds, hw]
  | roof =>
      refine ⟨?_, ?_, ?_⟩
      · by_cases h : s.selections.roof = some a <;>
          simp [selectPart, categorySelectedIds, h, hab, beq_iff_eq]
      · intro hne
        have hwa : s.selections.roof ≠ some a := by
          intro h
          exact hne (by simp [categorySelectedIds, h])
        simp [selectPart, categorySelectedIds, hwa, beq_iff_eq]
      · intro s'
        cases hw : s'.selections.roof <;> simp [categorySelectedIds, hw]

/-- C1 witness: the amended theorem applied to the wrap category, options
matte black and satin chrome, from the initial state. -/
theorem exclusive_toggle_correct_witness :
    categorySelectedIds (selectPart .wrap "wrap_satin_chrome_02"
      (selectPart .wrap "wrap_matte_black_01" initialState)) .wrap
      = ["wrap_satin_chrome_02"] ∧
    categorySelectedIds (selectPart .wrap "wrap_matte_black_01"
      (selectPart .wrap "wrap_matte_black_01" initialState)) .wrap = [] :=
  ⟨(exclusive_toggle_correct initialState .wrap "wrap_matte_black_01"
      "wrap_satin_chrome_02" (by decide) (by decide)).1,
   (exclusive_toggle_correct initialState .wrap "wrap_matte_black_01"
      "wrap_satin_chrome_02" (by decide) (by decide)).2.1 (by decide)⟩

/-- C3 counterexample: `deselectPart` genuinely mutates the selection but
leaves a previously set generation result and message in place. -/
theorem deselectPart_keeps_stale_result :
    (deselectPart .body "body_frontlip_black_01"
      { selections := { wrap := none, roof := none, body := ["body_frontlip_black_01"] },
        carImage := some "car.jpg", carImageUrl := some "blob:car.jpg",
        resultImage := some "old-result.png", isGenerating := false,
        aiMessage := some "done" }).selections.body = [] ∧
    (deselectPart .body "body_frontlip_black_01"
      { selections := { wrap := none, roof := none, body := ["body_frontlip_black_01"] },
        carImage := some "car.jpg", carImageUrl := some "blob:car.jpg",
        resultImage := some "old-result.png", isGenerating := false,
        aiMessage := some "done" }).resultImage = some "old-result.png" := by
  decide

/-- C3 (amended): `selectPart`, a base-photo change (`setCarImage`) and
`clearAll` clear a previously set generation result and message, but
`deselectPart` and `clearCategory` update only the selections and leave the
result image and message exactly as they were. -/
theorem mutation_result_clearing (s : StoreState) (c : PartCategoryId)
    (pid : String) (file : Option String) :
    (selectPart c pid s).resultImage = none ∧ (selectPart c pid s).aiMessage = none ∧
    (setCarImage file s).resultImage = none ∧ (setCarImage file s).aiMessage = none ∧
    (clearAll s).resultImage = none ∧ (clearAll s).aiMessage = none ∧
    (deselectPart c pid s).resultImage = s.resultImage ∧
    (deselectPart c pid s).aiMessage = s.aiMessage ∧
    (clearCategory c s).resultImage = s.resultImage ∧
    (clearCategory c s).aiMessage = s.aiMessage := by
  cases c <;>
    simp [selectPart, setCarImage, clearAll, deselectPart, clearCategory,
      initialState]

/-- C4 counterexample: in the additive body category, toggling the front lip
and then the side skirts from a state that already holds the rear spoiler
does not leave exactly those two options selected — the spoiler is still
there. -/
theorem additive_pair_toggle_counterexample :
    "body_spoiler_black_03" ∈ (selectPart .body "body_sideskirt_color_02"
      (selectPart .body "body_frontlip_black_01"
        { selections := { wrap := none, roof := none, body := ["body_spoiler_black_03"] },
          carImage := none, carImageUrl := none, resultImage := none,
          isGenerating := false, aiMessage := none })).selections.body ∧
    "body_spoiler_black_03" ≠ "body_frontlip_black_01" ∧
    "body_spoiler_black_03" ≠ "body_sideskirt_color_02" := by
  decide

/-- C4 (amended): in the additive body category, toggling distinct a then b
starting from an empty body selection leaves exactly a and b selected in
either toggle order; from any state, toggling the same option twice restores
the selection as a set of ids, and restores the exact selection list when the
option was not previously selected. -/
theorem additive_toggle_correct (s : StoreState) (a b : String) :
    (a ≠ b → s.selections.body = [] →
      (selectPart .body b (selectPart .body a s)).selections.body = [a, b] ∧
      (selectPart .body a (selectPart .body b s)).selections.body = [b, a]) ∧
    (∀ x, x ∈ (selectPart .body a (selectPart .body a s)).selections.body ↔
      x ∈ s.selections.body) ∧
    (a ∉ s.selections.body →
      (selectPart .body a (selectPart .body a s)).selections.body =
        s.selections.body) := by
  have hred : ∀ (t : StoreState) (p : String),
      (selectPart .body p t).selections.body =
        if p ∈ t.selections.body then t.selections.body.filter (fun id => id != p)
        else t.selections.body ++ [p] := by
    intro t p
    by_cases hm : p ∈ t.selections.body <;> simp [selectPart, hm]
  have hfilter_self : ∀ (l : List String) (p : String), p ∉ l →
      l.filter (fun id => id != p) = l := by
    intro l p hp
    refine List.filter_eq_self.2 (fun x hx => ?_)
    simp only [bne_iff_ne, ne_eq, decide_eq_true_eq]
    intro h
    exact hp (h ▸ hx)
  refine ⟨?_, ?_, ?_⟩
  · intro hab hempty
    constructor <;> simp [hred, hempty, hab, Ne.symm hab]
  · intro x
    rw [hred, hred]
    by_cases hmem : a ∈ s.selections.body
    · rw [if_pos hmem]
      have hnot : a ∉ s.selections.body.filter (fun id => id != a) := by
        intro hx
        rcases List.mem_filter.1 hx with ⟨_, hne⟩
        simp at hne
      rw [if_neg hnot]
      by_cases hxa : x = a
      · subst hxa
        simp [hmem]
      · simp [List.mem_filter, hxa]
  
    · rw [if_neg hmem]
      have hin : a ∈ s.selections.body ++ [a] := by simp
      rw [if_pos hin, List.filter_append, hfilter_self _ _ hmem]
      simp
  · intro hmem
    rw [hred, hred, if_neg hmem]
    have hin : a ∈ s.selections.body ++ [a] := by simp
    rw [if_pos hin, List.filter_append, hfilter_self _ _ hmem]
    simp

/-- C4 witness: the amended theorem applied to front lip and side skirts from
the initial (empty body) state. -/
theorem additive_toggle_correct_witness :
    (selectPart .body "body_sideskirt_color_02"
      (selectPart .body "body_frontlip_black_01" initialState)).selections.body =
      ["body_frontlip_black_01", "body_sideskirt_color_02"] ∧
    (selectPart .body "body_frontlip_black_01"
      (selectPart .body "body_frontlip_black_01" initialState)).selections.body = [] :=
  ⟨((additive_toggle_correct initialState "body_frontlip_black_01"
      "body_sideskirt_color_02").1 (by decide) rfl).1,
   (additive_toggle_correct initialState "body_frontlip_black_01"
      "body_sideskirt_color_02").2.2 (by decide)⟩

/-- C6 (confirmed): the generate handler's guard makes the action a no-op
when no base photo is present or nothing is selected — the state is returned
unchanged and no request is built. -/
theorem handleGenerate_noop_when_unready (s : StoreState)
    (h : s.carImage = none ∨ getSelectionCount s = 0) :
    handleGenerateStart s = (s, none) := by
  rcases h with h | h <;> simp [handleGenerateStart, h]

/-- C6 witness: the guard fires on the initial state (no photo, empty
selection). -/
theorem handleGenerate_noop_when_unready_witness :
    handleGenerateStart initialState = (initialState, none) :=
  handleGenerate_noop_when_unready initialState (Or.inl rfl)

/-- C7 counterexample: in `ConfiguratorLayout.handleGenerate` the response is
not classified by its status discriminator — the rate-limited response with
message "slow down" falls into the message branch, which installs the
placeholder result image, contradicting the claimed no-result-image
behavior. -/
theorem rate_limited_response_counterexample :
    (applyResponseCL initialState
      { status := some "rate_limited", image_base64 := none,
        image_url := none, message := some "slow down" }).resultImage =
      some PLACEHOLDER_IMAGE_URL ∧
    some PLACEHOLDER_IMAGE_URL ≠ (none : Option String) := by
  constructor
  · rfl
  · simp

/-- C7 (amended): the main page handler classifies a completed response by
its status discriminator: a rate-limited response keeps the result image
unchanged and carries the response message (so the concrete response with
message "slow down" carries exactly that message), and any response whose
discriminator is missing or not one of success/demo/rate_limited/
text_response lands in the catch-all failure branch; the `ConfiguratorLayout`
handler instead branches on payload fields and installs a placeholder image
for such a response. -/
theorem response_status_classification (s : MainPageState) (r r2 : GenResponse)
    (hrl : r.status = some "rate_limited") (hunk : knownStatus r2.status = false) :
    classifyResponse r =
      .rateLimited (orDefault r.message "Rate limited. Please wait and try again.") ∧
    (applyResponseMain s r).resultImage = s.resultImage ∧
    (applyResponseMain s r).generationMessage =
      some (orDefault r.message "Rate limited. Please wait and try again.") ∧
    classifyResponse r2 = .failure (orDefault r2.message "Generation completed") := by
  have hns : (r.status == some "success") = false := by simp [hrl]
  have hnd : (r.status == some "demo") = false := by simp [hrl]
  have hr : (r.status == some "rate_limited") = true := by simp [hrl]
  have h2 : (r2.status == some "success") = false ∧ (r2.status == some "demo") = false ∧
      (r2.status == some "rate_limited") = false ∧
      (r2.status == some "text_response") = false := by
    simp only [knownStatus, Bool.or_eq_false_iff] at hunk
    exact ⟨hunk.1.1.1, hunk.1.1.2, hunk.1.2, hunk.2⟩
  refine ⟨?_, ?_, ?_, ?_⟩
  · simp [classifyResponse, hns, hnd, hr]
  · simp [applyResponseMain, hns, hnd, hr]
  · simp [applyResponseMain, hns, hnd, hr]
  · simp [classifyResponse, h2.1, h2.2.1, h2.2.2.1, h2.2.2.2]

/-- C7 witness: the amended theorem applied to the rate-limited response
with message "slow down" and to a response with a missing discriminator. -/
theorem response_status_classification_witness :
    classifyResponse
      { status := some "rate_limited", image_base64 := none,
        image_url := none, message := some "slow down" } =
      .rateLimited "slow down" ∧
    (applyResponseMain
      { resultImage := none, generationMessage := none, isGenerating := true }
      { status := some "rate_limited", image_base64 := none,
        image_url := none, message := some "slow down" }).resultImage = none ∧
    classifyResponse
      { status := none, image_base64 := none, image_url := none,
        message := none } = .failure "Generation completed" := by
  have h := response_status_classification
    { resultImage := none, generationMessage := none, isGenerating := true }
    { status := some "rate_limited", image_base64 := none,
      image_url := none, message := some "slow down" }
    { status := none, image_base64 := none, image_url := none, message := none }
    rfl (by decide)
  exact ⟨h.1, h.2.1, h.2.2.2⟩

/-- C8 counterexample: two attempts are started back-to-back from a ready
state; the response of the newer attempt is processed first and the stale
response of the older attempt afterwards — the finally exposed result is the
older attempt's image, not the newer one's. -/
theorem stale_response_overwrites_newer :
    (applyResponseCL
      (applyResponseCL
        ((handleGenerateStart
          ((handleGenerateStart
            (setCarImage (some "car.jpg")
              (selectPart .wrap "wrap_matte_black_01" initialState))).1)).1)
        { status := some "success", image_base64 := some "image-epoch-N+1",
          image_url := none, message := none })
      { status := some "success", image_base64 := some "image-epoch-N",
        image_url := none, message := none }).resultImage = some "image-epoch-N" ∧
    some "image-epoch-N" ≠ some "image-epoch-N+1" := by
  constructor
  · rfl
  · simp

/-- C8 (amended): the handler tracks no attempt epoch; every completed
response is applied unconditionally, so when two responses are processed in
sequence the later-processed one determines the exposed result
(last-response-wins) — if the older attempt's response arrives after the
newer attempt's, the older attempt's result is the one finally exposed. -/
theorem last_response_wins (s : StoreState) (r1 r2 : GenResponse)
    (h : truthy r2.image_base64 = true) :
    (applyResponseCL (applyResponseCL s r1) r2).resultImage = r2.image_base64 := by
  simp [applyResponseCL, h, setIsGenerating, setAiMessage, setResultImage]

/-- C8 witness: last-response-wins applied to concrete back-to-back
responses. -/
theorem last_response_wins_witness :
    (applyResponseCL
      (applyResponseCL initialState
        { status := some "success", image_base64 := some "newer",
          image_url := none, message := none })
      { status := some "success", image_base64 := some "stale",
        image_url := none, message := none }).resultImage = some "stale" :=
  last_response_wins initialState
    { status := some "success", image_base64 := some "newer",
      image_url := none, message := none }
    { status := some "success", image_base64 := some "stale",
      image_url := none, message := none }
    (by decide)

/-- C10 (confirmed): `selectPart` performs no catalog validation — a bogus id
passed for the wrap category enters the selection state, is counted by
`getSelectionCount`, yet is dropped by `getSelectedParts`,
`getSelectedLayers` and `getTotalPrice`, so the selection count strictly
exceeds the number of parts returned. -/
theorem selectPart_unvalidated_id_discrepancy :
    (selectPart .wrap "no_such_part_id" initialState).selections.wrap =
      some "no_such_part_id" ∧
    getSelectionCount (selectPart .wrap "no_such_part_id" initialState) = 1 ∧
    getSelectedParts (selectPart .wrap "no_such_part_id" initialState) = [] ∧
    getSelectedLayers (selectPart .wrap "no_such_part_id" initialState) = [] ∧
    getTotalPrice (selectPart .wrap "no_such_part_id" initialState) = 0 ∧
    (getSelectedParts (selectPart .wrap "no_such_part_id" initialState)).length <
      getSelectionCount (selectPart .wrap "no_such_part_id" initialState) := by
  have hlayers : getSelectedLayers (selectPart .wrap "no_such_part_id" initialState) = [] := by
    have h : (selectedIds (selectPart .wrap "no_such_part_id" initialState)).filterMap
        getPartById = [] := by decide
    simp [getSelectedLayers, getLayersSortedByZIndex, h]
  exact ⟨by decide, by decide, by decide, hlayers, by decide, by decide⟩

/-- C9 (confirmed): in the raster path every overlay whose image loads is
drawn above the base photo even when other overlays fail (the per-part catch
skips exactly the failing layers), and in the live path every non-erroring
selected layer stays in the rendered stack while an erroring layer is the
only thing dropped. -/
theorem compositor_skips_failed_overlays (loadOk : RasterPartOption → Bool)
    (sel : List (OverlayCategoryId × RasterPartOption))
    (hasError : PartOption → Bool) (layers : List PartOption) :
    (renderCanvasOps loadOk sel).head? = some .drawBase ∧
    (∀ e ∈ sel, loadOk e.2 = true →
      DrawOp.drawOverlay e.2 (getOverlayAnchor e.1) ∈ renderCanvasOps loadOk sel) ∧
    (∀ q : RasterPartOption, loadOk q = false → ∀ a,
      DrawOp.drawOverlay q a ∉ renderCanvasOps loadOk sel) ∧
    (∀ p ∈ layers, hasError p = false → p ∈ renderStack hasError layers) ∧
    (∀ p : PartOption, hasError p = true → p ∉ renderStack hasError layers) := by
  refine ⟨rfl, ?_, ?_, ?_, ?_⟩
  · intro e he hok
    exact List.mem_cons_of_mem _ (List.mem_filterMap.2 ⟨e, he, by simp [hok]⟩)
  · intro q hq a hmem
    rcases List.mem_cons.1 hmem with h | h
    · exact absurd h (by simp)
    · rcases List.mem_filterMap.1 h with ⟨e, _, hsome⟩
      by_cases hok : loadOk e.2 = true
      · rw [if_pos hok] at hsome
        rcases Option.some.inj hsome with h2
        cases h2
        exact absurd hok (by simp [hq])
      · rw [if_neg hok] at hsome
        cases hsome
  · intro p hp herr
    exact List.mem_filter.2 ⟨hp, by simp [herr]⟩
  · intro p herr hmem
    have h := (List.mem_filter.1 hmem).2
    simp [herr] at h

/-- Sample wheel part of the raster iteration, used as the failing overlay. -/
def sampleRasterWheel : RasterPartOption :=
  { id := "wheel_sport_black_01", categoryId := .wheels, name := "Sport Black Alloy",
    rasterDescription := "Aggressive black multi-spoke sports wheel.",
    imagePath := "/parts/wheels/wheel_sport_black_01.png", price := 299 }

/-- Sample roof box part of the raster iteration, used as the loading overlay. -/
def sampleRasterRoofBox : RasterPartOption :=
  { id := "roof_box_black_01", categoryId := .roof, name := "Matte Black Roof Box",
    rasterDescription := "Sleek roof box for extra storage.",
    imagePath := "/parts/roof/roof_box_black_01.png", price := 449 }

/-- Load oracle under which exactly the sample wheel fails to load. -/
def sampleLoadOk : RasterPartOption → Bool := fun p => p.id != "wheel_sport_black_01"

/-- Sample raster selection: the failing wheel plus the loading roof box. -/
def sampleSel : List (OverlayCategoryId × RasterPartOption) :=
  [(OverlayCategoryId.wheels, sampleRasterWheel),
   (OverlayCategoryId.roof, sampleRasterRoofBox)]

/-- Error oracle under which exactly the matte black wrap layer errors. -/
def sampleHasError : PartOption → Bool := fun p => p.id == "wrap_matte_black_01"

/-- The matte black wrap catalog entry, used as the erroring live layer. -/
def sampleMatteWrap : PartOption :=
  { id := "wrap_matte_black_01", categoryId := .wrap, name := "Matte Black Wrap",
    partDescription := "Sleek matte black finish for a stealthy look.", price := 2499,
    imagePath := "/parts/wrap/wrap_matte_black_01.png",
    layerImageUrl := "/layers/wrap/matte-black.png", zIndex := 10 }

/-- The front lip catalog entry, used as the non-erroring live layer. -/
def sampleFrontLip : PartOption :=
  { id := "body_frontlip_black_01", categoryId := .body, name := "Black Front Lip Spoiler",
    partDescription := "Low front lip to sharpen the front view.", price := 189,
    imagePath := "/parts/body/body_frontlip_black_01.png",
    layerImageUrl := "/layers/body/frontlip-black.png", zIndex := 20 }

/-- Sample live-stack layers: the erroring matte wrap and the front lip. -/
def sampleLayers : List PartOption := [sampleMatteWrap, sampleFrontLip]

/-- C9 witness: with the failing wheel and erroring wrap, the base is still
drawn first, the roof box overlay is drawn, the wheel overlay is skipped, the
front lip stays in the live stack, and the wrap layer is dropped from it. -/
theorem compositor_skips_failed_overlays_witness :
    (renderCanvasOps sampleLoadOk sampleSel).head? = some .drawBase ∧
    DrawOp.drawOverlay sampleRasterRoofBox (getOverlayAnchor .roof) ∈
      renderCanvasOps sampleLoadOk sampleSel ∧
    (∀ a, DrawOp.drawOverlay sampleRasterWheel a ∉
      renderCanvasOps sampleLoadOk sampleSel) ∧
    sampleFrontLip ∈ renderStack sampleHasError sampleLayers ∧
    sampleMatteWrap ∉ renderStack sampleHasError sampleLayers := by
  have h := compositor_skips_failed_overlays sampleLoadOk sampleSel
    sampleHasError sampleLayers
  refine ⟨h.1, ?_, ?_, ?_, ?_⟩
  · exact h.2.1 (OverlayCategoryId.roof, sampleRasterRoofBox) (by decide) (by decide)
  · exact fun a => h.2.2.1 sampleRasterWheel (by decide) a
  · exact h.2.2.2.1 sampleFrontLip (by decide) (by decide)
  · exact h.2.2.2.2 sampleMatteWrap (by decide)

/-! Validity of a selection state (the data-model invariant of the spec:
every selected id belongs to a catalog option of its own category, and the
additive array holds no duplicates). -/

/-- Whether an id resolves in the catalog to an option of category c. -/
def idInCategory (pid : String) (c : PartCategoryId) : Bool :=
  (getPartById pid).any (fun p => p.categoryId == c)

/-- Price of a selected id: the resolved option's price (0 if unresolvable). -/
def priceOf (pid : String) : Nat :=
  ((getPartById pid).map (fun p => p.price)).getD 0

/-- The data-model invariant on a store state: each slot holds only ids of
its own category and the body array is duplicate-free. -/
def ValidState (s : StoreState) : Prop :=
  s.selections.wrap.all (fun pid => idInCategory pid .wrap) = true ∧
  s.selections.roof.all (fun pid => idInCategory pid .roof) = true ∧
  s.selections.body.all (fun pid => idInCategory pid .body) = true ∧
  s.selections.body.Nodup

instance (s : StoreState) : Decidable (ValidState s) := by
  unfold ValidState
  infer_instance

/-- Membership of an id in the slot of a given category. -/
def selectedIn (s : StoreState) (c : PartCategoryId) (pid : String) : Bool :=
  match c with
  | .wrap => s.selections.wrap == some pid
  | .roof => s.selections.roof == some pid
  | .body => s.selections.body.contains pid

lemma foldl_price (l : List PartOption) (n : Nat) :
    l.foldl (fun sum part => sum + part.price) n = n + (l.map (fun p => p.price)).sum := by
  induction l generalizing n with
  | nil => simp
  | cons p t ih =>
      rw [List.foldl_cons, ih]
      simp [List.map_cons, List.sum_cons]
      omega

lemma resolve_of_idInCategory {pid : String} {c : PartCategoryId}
    (h : idInCategory pid c = true) :
    ∃ p, getPartById pid = some p ∧ p.categoryId = c := by
  unfold idInCategory at h
  cases hores : getPartById pid with
  | none => rw [hores] at h; simp [Option.any] at h
  | some p =>
      rw [hores] at h
      simp only [Option.any, beq_iff_eq] at h
      exact ⟨p, rfl, h⟩

lemma priceOf_eq {pid : String} {p : PartOption} (h : getPartById pid = some p) :
    priceOf pid = p.price := by
  simp [priceOf, h]

lemma priceSum_filterMap (l : List String)
    (hres : ∀ pid ∈ l, (getPartById pid).isSome) :
    ((l.filterMap getPartById).map (fun p => p.price)).sum = (l.map priceOf).sum := by
  induction l with
  | nil => simp
  | cons x t ih =>
      rcases Option.isSome_iff_exists.1 (hres x (List.mem_cons_self x t)) with ⟨p, hp⟩
      rw [List.filterMap_cons]
      simp only [hp, List.map_cons, List.sum_cons, priceOf_eq hp]
      rw [ih (fun pid hm => hres pid (List.mem_cons_of_mem x hm))]

lemma valid_resolves (s : StoreState) (hv : ValidState s) :
    ∀ pid ∈ selectedIds s, (getPartById pid).isSome := by
  rcases hv with ⟨hw, hr, hb, _⟩
  intro pid hm
  unfold selectedIds at hm
  have hcat : ∃ c, idInCategory pid c = true := by
    rcases List.mem_append.1 hm with hm1 | hm1
    · rcases List.mem_append.1 hm1 with hm2 | hm2
      · cases hwv : s.selections.wrap with
        | none => rw [hwv] at hm2; cases hm2
        | some w =>
            rw [hwv] at hm2 hw
            simp [Option.toList] at hm2
            subst hm2
            exact ⟨.wrap, by simpa [Option.all] using hw⟩
      · cases hrv : s.selections.roof with
        | none => rw [hrv] at hm2; cases hm2
        | some w =>
            rw [hrv] at hm2 hr
            simp [Option.toList] at hm2
            subst hm2
            exact ⟨.roof, by simpa [Option.all] using hr⟩
    · exact ⟨.body, List.all_eq_true.1 hb pid hm1⟩
  rcases hcat with ⟨c, hc⟩
  rcases resolve_of_idInCategory hc with ⟨p, hp, _⟩
  simp [hp]

lemma getTotalPrice_eq_idSum (s : StoreState)
    (hres : ∀ pid ∈ selectedIds s, (getPartById pid).isSome) :
    getTotalPrice s = ((selectedIds s).map priceOf).sum := by
  unfold getTotalPrice getSelectedParts
  rw [foldl_price, priceSum_filterMap _ hres]
  simp

lemma priceSum_remove (l : List String) (pid : String) (hnd : l.Nodup)
    (hm : pid ∈ l) :
    ((l.filter (fun id => id != pid)).map priceOf).sum + priceOf pid =
      (l.map priceOf).sum := by
  induction l with
  | nil => cases hm
  | cons x t ih =>
      rcases List.nodup_cons.1 hnd with ⟨hx, hnt⟩
      by_cases hxp : x = pid
      · subst hxp
        have hfil : t.filter (fun id => id != x) = t :=
          List.filter_eq_self.2 (fun y hy => by
            simp only [bne_iff_ne, ne_eq, decide_eq_true_eq]
            intro h
            exact hx (h ▸ hy))
        rw [List.filter_cons]
        simp [hfil, Nat.add_comm]
      · have hm2 : pid ∈ t := by
          rcases List.mem_cons.1 hm with h | h
          · exact absurd h.symm hxp
          · exact h
        rw [List.filter_cons]
        have hkeep : (x != pid) = true := by simp [hxp]
        simp only [hkeep, if_pos, List.map_cons, List.sum_cons]
        rw [Nat.add_assoc, ih hnt hm2]

lemma selectedIds_selectPart_body (pid : String) (s : StoreState)
    (hm : pid ∈ s.selections.body) :
    selectedIds (selectPart .body pid s) =
      s.selections.wrap.toList ++ s.selections.roof.toList ++
        s.selections.body.filter (fun id => id != pid) := by
  simp [selectPart, selectedIds, hm]

lemma totalPrice_remove_body (s : StoreState) (hv : ValidState s) (pid : String)
    (hm : pid ∈ s.selections.body) :
    getTotalPrice (selectPart .body pid s) + priceOf pid = getTotalPrice s := by
  have hres := valid_resolves s hv
  have h1 := getTotalPrice_eq_idSum s hres
  have hnd : s.selections.body.Nodup := hv.2.2.2
  have hids := selectedIds_selectPart_body pid s hm
  have hres2 : ∀ q ∈ selectedIds (selectPart .body pid s), (getPartById q).isSome := by
    intro q hq
    apply hres
    rw [hids] at hq
    unfold selectedIds
    rcases List.mem_append.1 hq with h | h
    · exact List.mem_append.2 (Or.inl h)
    · exact List.mem_append.2 (Or.inr (List.mem_of_mem_filter h))
  rw [getTotalPrice_eq_idSum _ hres2, h1, hids]
  unfold selectedIds
  simp only [List.map_append, List.sum_append]
  have hkey := priceSum_remove s.selections.body pid hnd hm
  omega

/-- C5 (confirmed): in every invariant-satisfying store state, the total
price equals the sum of each selected id's price, and toggling off any
currently selected id decreases the total by exactly that id's price. -/
theorem totalPrice_correct (s : StoreState) (hv : ValidState s) :
    getTotalPrice s = ((selectedIds s).map priceOf).sum ∧
    (∀ c pid, selectedIn s c pid = true →
      getTotalPrice (selectPart c pid s) + priceOf pid = getTotalPrice s) := by
  have hres := valid_resolves s hv
  have h1 := getTotalPrice_eq_idSum s hres
  refine ⟨h1, ?_⟩
  intro c pid hsel
  cases c with
  | wrap =>
      have hw : s.selections.wrap = some pid := by
        simpa [selectedIn] using hsel
      have hids : selectedIds (selectPart .wrap pid s) =
          s.selections.roof.toList ++ s.selections.body := by
        simp [selectPart, selectedIds, hw]
      have hids0 : selectedIds s =
          pid :: (s.selections.roof.toList ++ s.selections.body) := by
        simp [selectedIds, hw]
      have hres2 : ∀ q ∈ selectedIds (selectPart .wrap pid s),
          (getPartById q).isSome := by
        intro q hq
        apply hres
        rw [hids0]
        rw [hids] at hq
        exact List.mem_cons_of_mem _ hq
      rw [getTotalPrice_eq_idSum _ hres2, h1, hids, hids0]
      simp [Nat.add_comm]
  | roof =>
      have hw : s.selections.roof = some pid := by
        simpa [selectedIn] using hsel
      have hids : selectedIds (selectPart .roof pid s) =
          s.selections.wrap.toList ++ s.selections.body := by
        simp [selectPart, selectedIds, hw]
      have hids0 : selectedIds s =
          s.selections.wrap.toList ++ pid :: s.selections.body := by
        simp [selectedIds, hw]
      have hres2 : ∀ q ∈ selectedIds (selectPart .roof pid s),
          (getPartById q).isSome := by
        intro q hq
        apply hres
        rw [hids0]
        rw [hids] at hq
        rcases List.mem_append.1 hq with h | h
        · exact List.mem_append.2 (Or.inl h)
        · exact List.mem_append.2 (Or.inr (List.mem_cons_of_mem _ h))
      rw [getTotalPrice_eq_idSum _ hres2, h1, hids, hids0]
      simp [List.map_append, List.sum_append]
      omega
  | body =>
      exact totalPrice_remove_body s hv pid (List.mem_of_elem_eq_true hsel)

/-- Valid sample state for the price witness: satin chrome wrap plus front
lip selected. -/
def priceWitnessState : StoreState :=
  { selections := { wrap := some "wrap_satin_chrome_02", roof := none,
                    body := ["body_frontlip_black_01"] },
    carImage := none, carImageUrl := none, resultImage := none,
    isGenerating := false, aiMessage := none }

/-- C5 witness: on the sample state the total price is the id-wise price sum,
and toggling off the front lip removes exactly its price. -/
theorem totalPrice_correct_witness :
    ValidState priceWitnessState ∧
    getTotalPrice priceWitnessState =
      ((selectedIds priceWitnessState).map priceOf).sum ∧
    getTotalPrice (selectPart .body "body_frontlip_black_01" priceWitnessState) +
      priceOf "body_frontlip_black_01" = getTotalPrice priceWitnessState :=
  ⟨by decide,
   (totalPrice_correct priceWitnessState (by decide)).1,
   (totalPrice_correct priceWitnessState (by decide)).2 .body
     "body_frontlip_black_01" (by decide)⟩

/-! Ordering of `selectedLayers`.  JS `Array.sort` with comparator
`a.zIndex - b.zIndex` is a stable ascending sort, modeled by `mergeSort`.
In an invariant-satisfying state no two distinct selected parts share a
`zIndex` (the only equal z-indices in the catalog are among the wrap options,
of which at most one can be selected), so the sorted output is strictly
increasing in `zIndex` and in particular lexicographically sorted by
(zIndex, catalog declaration index). -/

/-- Declaration index of a part in the catalog. -/
def catalogIdx (p : PartOption) : Nat :=
  PART_OPTIONS.findIdx (fun q => q.id == p.id)

lemma catalog_z_determines : ∀ p ∈ PART_OPTIONS, ∀ q ∈ PART_OPTIONS,
    p.zIndex = q.zIndex → p = q ∨ (p.categoryId = .wrap ∧ q.categoryId = .wrap) := by
  decide

lemma getPartById_mem {pid : String} {p : PartOption}
    (h : getPartById pid = some p) : p ∈ PART_OPTIONS :=
  List.mem_of_find?_eq_some h

lemma getPartById_id {pid : String} {p : PartOption}
    (h : getPartById pid = some p) : p.id = pid := by
  unfold getPartById at h
  have h2 := List.find?_some h
  simpa using h2

lemma idInCategory_category {pid : String} {p : PartOption} {c : PartCategoryId}
    (h : idInCategory pid c = true) (hp : getPartById pid = some p) :
    p.categoryId = c := by
  rcases resolve_of_idInCategory h with ⟨q, hq, hc⟩
  rw [hp] at hq
  cases Option.some.inj hq
  exact hc

lemma pairwise_slot (R : PartOption → PartOption → Prop) (o : Option String) :
    List.Pairwise R (o.toList.filterMap getPartById) := by
  cases o with
  | none => exact List.Pairwise.nil
  | some pid =>
      cases h : getPartById pid with
      | none => simp [Option.toList, List.filterMap_cons, h]
      | some p => simp [Option.toList, List.filterMap_cons, h]

lemma slot_parts_props {o : Option String} {c : PartCategoryId}
    (hall : o.all (fun pid => idInCategory pid c) = true) :
    ∀ p ∈ o.toList.filterMap getPartById, p ∈ PART_OPTIONS ∧ p.categoryId = c := by
  intro p hp
  rcases List.mem_filterMap.1 hp with ⟨pid, hpid, hres⟩
  cases o with
  | none => cases hpid
  | some x =>
      simp [Option.toList] at hpid
      subst hpid
      have hc : idInCategory pid c = true := by simpa [Option.all] using hall
      exact ⟨getPartById_mem hres, idInCategory_category hc hres⟩

lemma body_parts_props {l : List String}
    (hall : l.all (fun pid => idInCategory pid .body) = true) :
    ∀ p ∈ l.filterMap getPartById, p ∈ PART_OPTIONS ∧ p.categoryId = .body := by
  intro p hp
  rcases List.mem_filterMap.1 hp with ⟨pid, hpid, hres⟩
  have hc : idInCategory pid .body = true := List.all_eq_true.1 hall pid hpid
  exact ⟨getPartById_mem hres, idInCategory_category hc hres⟩

lemma body_parts_pairwise_ne {l : List String} (hnd : l.Nodup) :
    List.Pairwise (fun p q : PartOption => p.id ≠ q.id) (l.filterMap getPartById) := by
  rw [List.pairwise_filterMap]
  refine hnd.imp ?_
  intro a b hab p hp q hq
  rw [Option.mem_def] at hp hq
  rw [getPartById_id hp, getPartById_id hq]
  exact hab

lemma selectedParts_z_pairwise (s : StoreState) (hv : ValidState s) :
    List.Pairwise (fun p q : PartOption => p.zIndex ≠ q.zIndex)
      (getSelectedParts s) := by
  obtain ⟨hw, hr, hb, hnd⟩ := hv
  have key : ∀ p q : PartOption, p ∈ PART_OPTIONS → q ∈ PART_OPTIONS →
      p.categoryId ≠ q.categoryId → p.zIndex ≠ q.zIndex := by
    intro p q hp hq hne hz
    rcases catalog_z_determines p hp q hq hz with rfl | ⟨hcw, hcq⟩
    · exact hne rfl
    · exact hne (hcw.trans hcq.symm)
  have hA := slot_parts_props hw
  have hB := slot_parts_props hr
  have hC := body_parts_props hb
  have hgsp : getSelectedParts s =
      (s.selections.wrap.toList.filterMap getPartById ++
        s.selections.roof.toList.filterMap getPartById) ++
      s.selections.body.filterMap getPartById := by
    unfold getSelectedParts selectedIds
    rw [List.filterMap_append, List.filterMap_append]
  rw [hgsp]
  apply List.pairwise_append.2
  refine ⟨?_, ?_, ?_⟩
  · apply List.pairwise_append.2
    refine ⟨pairwise_slot _ _, pairwise_slot _ _, ?_⟩
    intro p hp q hq
    exact key p q (hA p hp).1 (hB q hq).1
      (by rw [(hA p hp).2, (hB q hq).2]; decide)
  · have hpw := body_parts_pairwise_ne hnd
    refine hpw.imp_of_mem ?_
    intro p q hpm hqm hid hz
    rcases catalog_z_determines p (hC p hpm).1 q (hC q hqm).1 hz with rfl | ⟨hcw, _⟩
    · exact hid rfl
    · rw [(hC p hpm).2] at hcw
      exact absurd hcw (by decide)
  · intro p hp q hq
    rcases List.mem_append.1 hp with h | h
    · exact key p q (hA p h).1 (hC q hq).1
        (by rw [(hA p h).2, (hC q hq).2]; decide)
    · exact key p q (hB p h).1 (hC q hq).1
        (by rw [(hB p h).2, (hC q hq).2]; decide)

/-- C2 (confirmed): in every invariant-satisfying state, `selectedLayers`
returns exactly the selected parts (a permutation of the resolved
selection), the returned `zIndex` sequence is non-decreasing, and the output
is sorted by the lexicographic key (zIndex, catalog declaration index) — the
form the tie-break rule takes; in a valid selection distinct parts never
share a `zIndex`, so the stable sort realizes it. -/
theorem selectedLayers_sorted (s : StoreState) (hv : ValidState s) :
    (getSelectedLayers s).Perm (getSelectedParts s) ∧
    List.Pairwise (fun p q : PartOption => p.zIndex ≤ q.zIndex)
      (getSelectedLayers s) ∧
    List.Pairwise (fun p q : PartOption =>
      p.zIndex < q.zIndex ∨ (p.zIndex = q.zIndex ∧ catalogIdx p ≤ catalogIdx q))
      (getSelectedLayers s) := by
  have hperm : (getSelectedLayers s).Perm (getSelectedParts s) := by
    unfold getSelectedLayers getLayersSortedByZIndex getSelectedParts
    exact List.mergeSort_perm _ _
  have hsorted : List.Pairwise
      (fun p q : PartOption => decide (p.zIndex ≤ q.zIndex) = true)
      (getSelectedLayers s) := by
    unfold getSelectedLayers getLayersSortedByZIndex
    exact List.sorted_mergeSort
      (fun a b c hab hbc => by
        simp only [decide_eq_true_eq] at hab hbc ⊢
        omega)
      (fun a b => by simpa using Nat.le_total a.zIndex b.zIndex) _
  have hle : List.Pairwise (fun p q : PartOption => p.zIndex ≤ q.zIndex)
      (getSelectedLayers s) :=
    hsorted.imp (fun h => by simpa using h)
  have hne : List.Pairwise (fun p q : PartOption => p.zIndex ≠ q.zIndex)
      (getSelectedLayers s) :=
    (hperm.pairwise_iff (fun h => h.symm)).2 (selectedParts_z_pairwise s hv)
  have hlt : List.Pairwise (fun p q : PartOption => p.zIndex < q.zIndex)
      (getSelectedLayers s) :=
    (hle.and hne).imp (fun h => Nat.lt_of_le_of_ne h.1 h.2)
  exact ⟨hperm, hle, hlt.imp (fun h => Or.inl h)⟩

/-- Valid sample state for the layers witness: chrome wrap, roof box, and the
two body parts selected in reverse z order. -/
def layersWitnessState : StoreState :=
  { selections := { wrap := some "wrap_satin_chrome_02",
                    roof := some "roof_box_black_01",
                    body := ["body_spoiler_black_03", "body_frontlip_black_01"] },
    carImage := none, carImageUrl := none, resultImage := none,
    isGenerating := false, aiMessage := none }

/-- C2 witness: the sorting theorem applied to the sample valid state. -/
theorem selectedLayers_sorted_witness :
    ValidState layersWitnessState ∧
    ((getSelectedLayers layersWitnessState).Perm
      (getSelectedParts layersWitnessState) ∧
    List.Pairwise (fun p q : PartOption => p.zIndex ≤ q.zIndex)
      (getSelectedLayers layersWitnessState) ∧
    List.Pairwise (fun p q : PartOption =>
      p.zIndex < q.zIndex ∨ (p.zIndex = q.zIndex ∧ catalogIdx p ≤ catalogIdx q))
      (getSelectedLayers layersWitnessState)) :=
  ⟨by decide, selectedLayers_sorted layersWitnessState (by decide)⟩

end CarFit
